import Mathlib

/-!
Shallow embedding of the JEOL_scripts repository: `stage_logger.py`
(the TEM stage position logger) and `beam_blank.py` (the beam blank
controller). Pure functions model the source's functions; the mutable
state of the logging loop is passed explicitly; fallible calls are
modelled with `Option`/`Bool` outcomes. Machine floats of the source are
modelled as rationals; wall-clock instants as rationals.
-/

namespace StageLogger

/-- State of the CSV output file and its parent directory, as acted on by
`setup_csv_file`, `log_position` and `cleanup`: `parentExists` — the output
file's parent directory exists; `fileExists` — the output file exists on
disk; `rows` — the CSV rows (header and data lines) in file order;
`isOpen` — a file handle is currently open on the file. -/
structure SinkState where
  parentExists : Bool
  fileExists : Bool
  rows : List (List String)
  isOpen : Bool
deriving DecidableEq, Repr

/-- The fieldnames list of `setup_csv_file` (stage_logger.py lines 86-87). -/
def fieldnames : List String :=
  ["timestamp", "x_position", "y_position", "z_position", "alpha_tilt", "beta_tilt"]

/-- Embedding of `setup_csv_file` (lines 76-101): mkdir(parents=True,
exist_ok=True) on the parent, record whether the file already existed, open
the file in append mode (creating it if absent, never truncating), and write
the header row iff the file did not previously exist. The OS-error branch
returning False is modelled by the `setupOk` flag of `run`, not here. -/
def setup_csv_file (fs : SinkState) : SinkState :=
  let file_exists := fs.fileExists
  let fs1 : SinkState :=
    { parentExists := true, fileExists := true, rows := fs.rows, isOpen := true }
  if file_exists then fs1 else { fs1 with rows := fs1.rows ++ [fieldnames] }

/-- One fully populated stage reading: the dict built by
`get_stage_position` (lines 64-71). -/
structure PositionData where
  timestamp : String
  x_position : ℚ
  y_position : ℚ
  z_position : ℚ
  alpha_tilt : ℚ
  beta_tilt : ℚ
deriving DecidableEq, Repr

/-- Embedding of `get_stage_position` (lines 58-74): `read` is the outcome of
`self.tem.Stage3().GetPos()`, with `none` meaning the call raised. The
indexing `stage_data[0]`..`stage_data[4]` succeeds only when at least five
components are present; a shorter tuple raises IndexError, which the
surrounding try catches, so both a raised read and a partial tuple yield
None. `ts` is the `datetime.now().isoformat()` timestamp taken inside. -/
def get_stage_position (ts : String) (read : Option (List ℚ)) : Option PositionData :=
  match read with
  | none => none
  | some (x :: y :: z :: a :: b :: _) =>
      some { timestamp := ts, x_position := x, y_position := y, z_position := z,
             alpha_tilt := a, beta_tilt := b }
  | some _ => none

/-- The CSV data row the DictWriter emits for one sample, in `fieldnames`
order. -/
def rowOf (p : PositionData) : List String :=
  [p.timestamp, toString p.x_position, toString p.y_position, toString p.z_position,
   toString p.alpha_tilt, toString p.beta_tilt]

/-- Embedding of `log_position` (lines 103-111): writerow followed by flush.
`writeOk = false` models the write raising: the row is not appended, False is
returned, and the caller decides what to do. -/
def log_position (writeOk : Bool) (p : PositionData) (fs : SinkState) :
    Bool × SinkState :=
  if writeOk then (true, { fs with rows := fs.rows ++ [rowOf p] }) else (false, fs)

/-- The mutable state the main loop reads and writes: `self.running`, the
local `log_count`, and the sink file. -/
structure LoopState where
  running : Bool
  log_count : ℕ
  sink : SinkState
deriving DecidableEq, Repr

/-- Environment of one loop iteration: whether SIGINT was delivered before the
`while self.running` check of this iteration (the handler then has already set
running to False), whether the body raises an unexpected exception that
escapes to run's except clause, the outcome of the stage read, the timestamp
taken, and whether the CSV write succeeds. -/
structure IterInput where
  signalBefore : Bool
  raises : Bool
  readResult : Option (List ℚ)
  ts : String
  writeOk : Bool
deriving DecidableEq, Repr

/-- One execution of the loop body (lines 135-151): read the stage position;
when it is None nothing further happens for this iteration; on a sample, log
it to the file and, when the write succeeded, increment `log_count` (the
every-10th-sample rate print is diagnostic console output only); the final
`time.sleep(self.interval)` is modelled separately by `loopSleep`. -/
def loopStep (inp : IterInput) (st : LoopState) : LoopState :=
  match get_stage_position inp.ts inp.readResult with
  | none => st
  | some p =>
      let r := log_position inp.writeOk p st.sink
      if r.1 then { st with log_count := st.log_count + 1, sink := r.2 }
      else { st with sink := r.2 }

/-- The while loop of `run` (lines 134-151) over a finite trace of iteration
environments: at each iteration boundary a pending signal (if any) has set
running to False; the guard then either exits the loop, or the body runs — an
unexpected exception instead aborts the loop into the except clause. Either
way control reaches the finally block of `run`. -/
def runLoop : List IterInput → LoopState → LoopState
  | [], st => st
  | inp :: rest, st =>
      let st1 := if inp.signalBefore then { st with running := false } else st
      if st1.running then
        if inp.raises then st1 else runLoop rest (loopStep inp st1)
      else st1

/-- Which attributes the connected TEM object exposes, consulted by the
hasattr checks of `cleanup`. -/
structure TemFeatures where
  hasDisconnect : Bool
  hasClose : Bool
deriving DecidableEq, Repr

/-- Embedding of `cleanup` (lines 160-178): close the CSV file if one was
opened; then, if a TEM object is set, the branch guarded by
`hasattr(self.tem, 'disconnect')` executes `self.tem.connect()`, and
otherwise the branch guarded by `hasattr(self.tem, 'close')` executes
`self.tem.close()`. The returned list records the calls issued, in order. -/
def cleanup (temSet : Bool) (feat : TemFeatures) (csvSet : Bool) (fs : SinkState) :
    SinkState × List String :=
  let fsClosed := if csvSet then { fs with isOpen := false } else fs
  let csvCalls := if csvSet then ["csv_file.close"] else []
  let temCalls :=
    if temSet then
      if feat.hasDisconnect then ["tem.connect"]
      else if feat.hasClose then ["tem.close"]
      else []
    else []
  (fsClosed, csvCalls ++ temCalls)

/-- Result of `run`: the returned boolean, the final file state, and the
teardown calls issued by `cleanup`. -/
structure RunResult where
  success : Bool
  sink : SinkState
  calls : List String
deriving DecidableEq, Repr

/-- Embedding of `run` (lines 113-158): if `initialize_tem` fails
(`connectOk = false`) run returns False at once — `setup_csv_file` has not
run and no cleanup happens; likewise if `setup_csv_file` fails (partial
effects of a failed setup are not modelled; no claim depends on them).
Otherwise the loop executes inside try/except/finally: whether it ends by the
stop request, by exhausting the trace, or by an unexpected exception, cleanup
runs in the finally block and run returns True. -/
def run (connectOk setupOk : Bool) (feat : TemFeatures) (inputs : List IterInput)
    (fs0 : SinkState) : RunResult :=
  if connectOk = false then { success := false, sink := fs0, calls := [] }
  else if setupOk = false then { success := false, sink := fs0, calls := [] }
  else
    let fsOpen := setup_csv_file fs0
    let final := runLoop inputs { running := true, log_count := 0, sink := fsOpen }
    let c := cleanup true feat true final.sink
    { success := true, sink := c.1, calls := c.2 }

/-- Embedding of `signal_handler` (lines 42-45): print a message, set
`self.running = False`, return. It issues no sink or adapter calls; the
returned list records the teardown calls it performs — none. -/
def signal_handler (st : LoopState) : LoopState × List String :=
  ({ st with running := false }, [])

/-- Session state after n deliveries of SIGINT to the handler, starting from
state `st0`. The constructor sets running = True once; the handler is the
only code in the source that writes the flag afterwards. -/
def stateAfterSignals (st0 : LoopState) : ℕ → LoopState
  | 0 => st0
  | n + 1 => (signal_handler (stateAfterSignals st0 n)).1

/-- Number of true-to-false transitions of the running flag among the first n
signal deliveries. -/
def downCount (st0 : LoopState) : ℕ → ℕ
  | 0 => 0
  | n + 1 =>
      downCount st0 n +
        (if (stateAfterSignals st0 n).running = true ∧
            (stateAfterSignals st0 (n + 1)).running = false then 1 else 0)

/-- Number of false-to-true transitions of the running flag among the first n
signal deliveries. -/
def upCount (st0 : LoopState) : ℕ → ℕ
  | 0 => 0
  | n + 1 =>
      upCount st0 n +
        (if (stateAfterSignals st0 n).running = false ∧
            (stateAfterSignals st0 (n + 1)).running = true then 1 else 0)

/-- Sleep performed at the end of each iteration: the source executes
`time.sleep(self.interval)` (line 151), a constant duration independent of
how long the iteration body took; the `elapsed` argument is ignored exactly
as the source ignores it. -/
def loopSleep (interval elapsed : ℚ) : ℚ := interval

/-- Following the spec's words, for comparison with `loopSleep`: sleep
max(0, interval - elapsed) where elapsed is the time since the iteration
start. -/
def specLoopSleep (interval elapsed : ℚ) : ℚ := max 0 (interval - elapsed)

/-- Period between consecutive accepted samples when each acquisition (body)
takes d seconds: the body time plus the sleep the code performs. -/
def samplePeriod (interval d : ℚ) : ℚ := d + loopSleep interval d

/-- Instant of the nth accepted sample (first sample at time 0), under the
code's pacing. -/
def sampleTime (interval d : ℚ) : ℕ → ℚ
  | 0 => 0
  | n + 1 => sampleTime interval d n + samplePeriod interval d

/-- Numeric value of a digit string. -/
def digitsVal (l : List Char) : ℕ :=
  l.foldl (fun acc c => 10 * acc + (c.toNat - 48)) 0

/-- Model of Python `float(s)` on the plain decimal strings this program
receives: optional sign, then digits with an optional fractional part;
`none` means float() raises ValueError. Exponents, infinities and
surrounding whitespace, which float also accepts, do not occur in the
scenarios at issue and are not modelled. -/
def parseFloatArg (s : String) : Option ℚ :=
  let cs := s.toList
  let sb : ℚ × List Char :=
    match cs with
    | '-' :: r => (-1, r)
    | '+' :: r => (1, r)
    | r => (1, r)
  let ip := sb.2.takeWhile Char.isDigit
  let rest := sb.2.dropWhile Char.isDigit
  match rest with
  | [] => if ip.isEmpty then none else some (sb.1 * (digitsVal ip : ℚ))
  | '.' :: fp =>
      if fp.all Char.isDigit && !(ip.isEmpty && fp.isEmpty) then
        some (sb.1 * ((digitsVal ip : ℚ) + (digitsVal fp : ℚ) / (10 : ℚ) ^ fp.length))
      else none
  | _ => none

/-- The default interval 0.1 of `get_user_parameters` (line 187). -/
def default_interval : ℚ := 1 / 10

/-- Embedding of lines 195-199 of `get_user_parameters`: the interval
argument, when present, is passed to float(); only a ValueError falls back
(with a warning) to the default; any parsed value — positive or not — is used
as-is. -/
def resolveInterval (arg : Option String) : ℚ :=
  match arg with
  | none => default_interval
  | some s =>
      match parseFloatArg s with
      | some v => v
      | none => default_interval

/-- The `1/interval` division in the configuration display (line 206): Python
raises ZeroDivisionError when interval is 0; the :.1f formatting of a
successful division is elided. -/
def displayRateHz (interval : ℚ) : Except String ℚ :=
  if interval = 0 then Except.error "ZeroDivisionError" else Except.ok (1 / interval)

/-- Reaching the first configuration display in `get_user_parameters` with
the interval resolved from argv: the call either shows a rate or raises. -/
def configDisplay (arg : Option String) : Except String ℚ :=
  displayRateHz (resolveInterval arg)

/-- Fixture: empty filesystem — no directory, no file. -/
def fsEmpty : SinkState :=
  { parentExists := false, fileExists := false, rows := [], isOpen := false }

/-- Fixture: loop state at entry of the main loop over an empty file. -/
def st0 : LoopState :=
  { running := true, log_count := 0, sink := fsEmpty }

/-- Fixture: an ordinary iteration with a full five-component reading; `ok`
is the CSV write outcome. -/
def sampleIter (ts : String) (ok : Bool) : IterInput :=
  { signalBefore := false, raises := false, readResult := some [1, 2, 3, 4, 5],
    ts := ts, writeOk := ok }

/-- Fixture: iteration boundary at which the SIGINT stop request is
observed. -/
def stopIter : IterInput :=
  { signalBefore := true, raises := false, readResult := none, ts := "",
    writeOk := false }

/-- Fixture: iteration whose body raises an unexpected exception. -/
def raiseIter : IterInput :=
  { signalBefore := false, raises := true, readResult := none, ts := "",
    writeOk := false }

/-- Fixture: iteration whose stage read raises. -/
def failIter : IterInput :=
  { signalBefore := false, raises := false, readResult := none, ts := "t",
    writeOk := true }

/-- Fixture: iteration whose stage read returns a partial (three-component)
tuple. -/
def partialIter : IterInput :=
  { signalBefore := false, raises := false, readResult := some [1, 2, 3],
    ts := "t", writeOk := true }

/-- Fixture: trace with three consecutive write failures followed by a
successful write and then the stop request. -/
def c3Inputs : List IterInput :=
  [sampleIter "t1" false, sampleIter "t2" false, sampleIter "t3" false,
   sampleIter "t4" true, stopIter]

end StageLogger

namespace BeamBlank

/-- Observable effect of one `toggle_beam` call: the value passed to
`Def3().SetBeamBlank` and the new `self.is_blank`. -/
structure ToggleResult where
  setBeamBlankArg : ℕ
  is_blank : Bool
deriving DecidableEq, Repr

/-- Embedding of `toggle_beam` (beam_blank.py lines 34-42): when `is_blank`
holds, call SetBeamBlank(1) and then set `is_blank := False`; otherwise call
SetBeamBlank(0) and set `is_blank := True`. Button text and colour updates
are elided. -/
def toggle_beam (b : Bool) : ToggleResult :=
  if b then { setBeamBlankArg := 1, is_blank := false }
  else { setBeamBlankArg := 0, is_blank := true }

end BeamBlank

open StageLogger BeamBlank

theorem loopStep_running (inp : IterInput) (st : LoopState) :
    (loopStep inp st).running = st.running := by
  unfold loopStep
  cases get_stage_position inp.ts inp.readResult with
  | none => rfl
  | some p =>
      dsimp only
      split <;> rfl

theorem loopStep_writeFail (inp : IterInput) (st : LoopState)
    (h : inp.writeOk = false) : loopStep inp st = st := by
  unfold loopStep
  cases get_stage_position inp.ts inp.readResult with
  | none => rfl
  | some p => simp [log_position, h]

theorem runLoop_running_of_no_stop (l : List IterInput) (s : LoopState)
    (hs : s.running = true)
    (hl : ∀ i ∈ l, i.signalBefore = false ∧ i.raises = false) :
    (runLoop l s).running = true := by
  induction l generalizing s with
  | nil => simpa [runLoop] using hs
  | cons a t ih =>
      have ha := hl a (by simp)
      have ht : ∀ i ∈ t, i.signalBefore = false ∧ i.raises = false :=
        fun i hi => hl i (by simp [hi])
      simp only [runLoop, ha.1, ha.2, if_false, Bool.false_eq_true, hs, if_true]
      exact ih (loopStep a s) (by rw [loopStep_running]; exact hs) ht

/-- C1: On every termination path of the sampling loop (normal stop request
and in-loop unexpected exception alike) teardown runs and closes the CSV file
first, but the adapter call that follows is tem.connect(), not
tem.disconnect(): the branch of cleanup guarded by hasattr('disconnect')
invokes connect(), so disconnect() is never called — contradicting the code's
own comment ("Close TEM connection if applicable") and its printed Ctrl+C
instructions ("Disconnect from the TEM safely"). Evaluated with the adapter
exposing a disconnect attribute. -/
theorem C1_cleanup_calls_connect_not_disconnect :
    (run true true ⟨true, true⟩ [stopIter] fsEmpty).calls
      = ["csv_file.close", "tem.connect"] ∧
    (run true true ⟨true, true⟩ [raiseIter] fsEmpty).calls
      = ["csv_file.close", "tem.connect"] ∧
    "tem.disconnect" ∉ (run true true ⟨true, true⟩ [stopIter] fsEmpty).calls := by
  refine ⟨rfl, rfl, ?_⟩
  decide

/-- C2 counterexample: with interval 1 and elapsed 1/2 the code sleeps 1, not
max(0, 1 - 1/2) = 1/2 as claimed; consequently the 4th accepted sample occurs
at time 6 = 4 * (1 + 1/2), not within tolerance of 4 * 1. -/
theorem C2_counterexample_fixed_sleep :
    loopSleep 1 (1/2) = 1 ∧
    specLoopSleep 1 (1/2) = 1/2 ∧
    loopSleep 1 (1/2) ≠ specLoopSleep 1 (1/2) ∧
    sampleTime 1 (1/2) 4 = 6 := by
  refine ⟨rfl, ?_, ?_, ?_⟩
  · norm_num [specLoopSleep]
  · norm_num [loopSleep, specLoopSleep]
  · norm_num [sampleTime, samplePeriod, loopSleep]

/-- C2 amended: the loop does not measure elapsed time for pacing; it sleeps
the fixed configured interval on every iteration, so with acquisition time d
the period between consecutive accepted samples is interval + d and the nth
sample occurs at n * (interval + d): the lag n * d grows with every sample
instead of staying within a bounded tolerance of the interval. -/
theorem C2_amended_fixed_interval_drift (interval d : ℚ) (n : ℕ) :
    loopSleep interval d = interval ∧
    samplePeriod interval d = interval + d ∧
    sampleTime interval d n = n * (interval + d) := by
  refine ⟨rfl, by simp [samplePeriod, loopSleep, add_comm], ?_⟩
  induction n with
  | zero => simp [sampleTime]
  | succ k ih =>
      simp only [sampleTime, samplePeriod, loopSleep, ih]
      push_cast
      ring

/-- C3 counterexample: a session whose trace contains three consecutive CSV
write failures does not abort: the fourth iteration still runs and logs its
sample, the stop request then ends the session, and run returns True (exit
status zero) — no escalation to an aborted, non-zero-status session occurs. -/
theorem C3_counterexample_no_escalation :
    (run true true ⟨true, true⟩ c3Inputs fsEmpty).success = true ∧
    (run true true ⟨true, true⟩ c3Inputs fsEmpty).sink.rows
      = [fieldnames,
         rowOf { timestamp := "t4", x_position := 1, y_position := 2,
                 z_position := 3, alpha_tilt := 4, beta_tilt := 5 }] := by
  constructor <;> rfl

/-- C3 amended: a single write failure does not terminate the session — the
sample is skipped, neither persisted nor counted — but there is no
escalation: any number of (consecutive) write failures leaves the loop
running, since in the absence of a stop request or an unexpected exception
the loop is still running after any trace, however many writes failed. -/
theorem C3_amended_write_failures_never_abort (st : LoopState) (inp : IterInput)
    (rest inputs : List IterInput)
    (hrun : st.running = true) (hsig : inp.signalBefore = false)
    (hraise : inp.raises = false) (hwrite : inp.writeOk = false)
    (hall : ∀ i ∈ inputs, i.signalBefore = false ∧ i.raises = false) :
    runLoop (inp :: rest) st = runLoop rest st ∧
    (runLoop inputs st).running = true := by
  constructor
  · simp only [runLoop, hsig, if_false, Bool.false_eq_true, hrun, if_true, hraise,
      loopStep_writeFail inp st hwrite]
  · exact runLoop_running_of_no_stop inputs st hrun hall

/-- Witness for C3's amended theorem at a concrete trace. -/
theorem C3_amended_write_failures_never_abort_witness :
    runLoop [sampleIter "w" false] st0 = runLoop [] st0 ∧
    (runLoop [sampleIter "x" true] st0).running = true :=
  C3_amended_write_failures_never_abort st0 (sampleIter "w" false) []
    [sampleIter "x" true] rfl rfl rfl rfl (by decide)

/-- C4 counterexample: the command-line argument "-1" parses successfully as
a float, so no fallback happens: the resolved interval is -1 — not the
default 0.1 — and is not strictly positive. -/
theorem C4_counterexample_negative_interval_accepted :
    parseFloatArg "-1" = some (-1) ∧
    resolveInterval (some "-1") = -1 ∧
    resolveInterval (some "-1") ≠ default_interval ∧
    ¬ (0 < resolveInterval (some "-1")) := by
  have h : parseFloatArg "-1" = some ((-1 : ℚ) * (digitsVal ['1'] : ℚ)) := rfl
  have h2 : digitsVal ['1'] = 1 := by decide
  have hp : parseFloatArg "-1" = some (-1) := by rw [h, h2]; norm_num
  have hr : resolveInterval (some "-1") = -1 := by simp [resolveInterval, hp]
  refine ⟨hp, hr, ?_, ?_⟩
  · rw [hr]
    norm_num [default_interval]
  · rw [hr]
    norm_num

/-- C4 amended: the fallback to the default 0.1 with a warning happens
exactly when float() raises ValueError, i.e. when the argument does not
parse; any value that parses — including non-positive values such as -1 — is
used as the interval unchanged, so the effective interval is not guaranteed
to be positive. -/
theorem C4_amended_fallback_only_on_parse_failure (s : String) (v : ℚ) :
    (parseFloatArg s = some v → resolveInterval (some s) = v) ∧
    (parseFloatArg s = none → resolveInterval (some s) = default_interval) := by
  constructor <;> intro h <;> simp [resolveInterval, h]

/-- Witness for C4's amended theorem: a parseable negative value is kept, an
unparseable one falls back. -/
theorem C4_amended_fallback_witness :
    resolveInterval (some "-1") = -1 ∧
    resolveInterval (some "abc") = default_interval := by
  constructor
  · refine (C4_amended_fallback_only_on_parse_failure "-1" (-1)).1 ?_
    have h : parseFloatArg "-1" = some ((-1 : ℚ) * (digitsVal ['1'] : ℚ)) := rfl
    have h2 : digitsVal ['1'] = 1 := by decide
    rw [h, h2]
    norm_num
  · exact (C4_amended_fallback_only_on_parse_failure "abc" 0).2 rfl

/-- C5: when the read fails (GetPos raises) or returns a partial tuple,
get_stage_position yields None and the iteration leaves the whole loop state
unchanged — no row is persisted, log_count is not incremented, the loop is
not terminated — and the loop goes on to process the rest of the trace. -/
theorem C5_bad_read_skipped_loop_continues (st : LoopState) (inp : IterInput)
    (rest : List IterInput) (hrun : st.running = true)
    (hsig : inp.signalBefore = false) (hraise : inp.raises = false)
    (hread : get_stage_position inp.ts inp.readResult = none) :
    runLoop (inp :: rest) st = runLoop rest st := by
  have hstep : loopStep inp st = st := by
    unfold loopStep
    rw [hread]
  simp only [runLoop, hsig, if_false, Bool.false_eq_true, hrun, if_true, hraise, hstep]

/-- Witness for C5 at a raised read and at a partial three-component tuple. -/
theorem C5_bad_read_witness :
    runLoop [failIter] st0 = runLoop [] st0 ∧
    runLoop [partialIter] st0 = runLoop [] st0 :=
  ⟨C5_bad_read_skipped_loop_continues st0 failIter [] rfl rfl rfl rfl,
   C5_bad_read_skipped_loop_continues st0 partialIter [] rfl rfl rfl rfl⟩

/-- C6: setup_csv_file creates the parent directory, opens the file in append
mode (afterwards the file exists and is open), appends the header row exactly
when the file did not previously exist — prior contents are preserved in
place, never truncated — and a second setup on the resulting file appends
nothing, so re-running never rewrites or duplicates the header. -/
theorem C6_setup_append_mode_header_once (fs : SinkState) :
    (setup_csv_file fs).parentExists = true ∧
    (setup_csv_file fs).isOpen = true ∧
    (setup_csv_file fs).fileExists = true ∧
    (setup_csv_file fs).rows
      = fs.rows ++ (if fs.fileExists then [] else [fieldnames]) ∧
    (setup_csv_file (setup_csv_file fs)).rows = (setup_csv_file fs).rows := by
  unfold setup_csv_file
  by_cases h : fs.fileExists <;> simp [h]

/-- C7: the SIGINT handler only clears the running flag — the sink and the
count are untouched and no teardown call is issued; a second delivery is a
no-op; and over any number n of deliveries the flag never rises
false-to-true, and falls true-to-false exactly once as soon as the session
(which starts with running = true) has received at least one signal. -/
theorem C7_signal_handler_flag (st0 : LoopState) (n : ℕ) :
    (signal_handler st0).1.running = false ∧
    (signal_handler st0).1.log_count = st0.log_count ∧
    (signal_handler st0).1.sink = st0.sink ∧
    (signal_handler st0).2 = [] ∧
    signal_handler ((signal_handler st0).1) = signal_handler st0 ∧
    (stateAfterSignals st0 (n + 1)).running = false ∧
    upCount st0 n = 0 ∧
    downCount st0 n = if st0.running = true ∧ 1 ≤ n then 1 else 0 := by
  refine ⟨rfl, rfl, rfl, rfl, rfl, rfl, ?_, ?_⟩
  · induction n with
    | zero => rfl
    | succ k ih =>
        have hk : (stateAfterSignals st0 (k + 1)).running = false := rfl
        simp [upCount, ih, hk]
  · induction n with
    | zero => simp [downCount]
    | succ k ih =>
        cases k with
        | zero =>
            by_cases h : st0.running = true <;>
              simp [downCount, stateAfterSignals, signal_handler, h]
        | succ m =>
            have hm : (stateAfterSignals st0 (m + 1)).running = false := rfl
            rw [downCount, ih]
            simp only [hm, Bool.false_eq_true, false_and, if_false, add_zero]
            by_cases h : st0.running = true <;> simp [h]

/-- C8: the command-line argument "0" parses successfully as the float 0.0,
so no fallback to the default happens, and the configuration display's
1/interval division in get_user_parameters then raises an uncaught
ZeroDivisionError instead of rejecting the value. -/
theorem C8_zero_interval_division_error :
    parseFloatArg "0" = some 0 ∧
    resolveInterval (some "0") = 0 ∧
    configDisplay (some "0") = Except.error "ZeroDivisionError" := by
  have h : parseFloatArg "0" = some ((1 : ℚ) * (digitsVal ['0'] : ℚ)) := rfl
  have h2 : digitsVal ['0'] = 0 := by decide
  have hp : parseFloatArg "0" = some 0 := by rw [h, h2]; norm_num
  have hr : resolveInterval (some "0") = 0 := by simp [resolveInterval, hp]
  refine ⟨hp, hr, ?_⟩
  simp [configDisplay, hr, displayRateHz]

/-- C9: when the instrument connection step fails, run returns a failure
outcome immediately: the sink is exactly the initial one — the file is
neither created, opened nor modified, no header or record is written — and no
cleanup call is issued, whatever the rest of the environment would have
been. -/
theorem C9_connect_failure_leaves_sink_untouched (setupOk : Bool)
    (feat : TemFeatures) (inputs : List IterInput) (fs0 : SinkState) :
    run false setupOk feat inputs fs0
      = { success := false, sink := fs0, calls := [] } := rfl

/-- C10: toggle_beam always flips is_blank (two consecutive toggles restore
it), and the argument passed to SetBeamBlank is 1 exactly when is_blank held
before the call — the commanded blanking state equals the state believed
current before the toggle, not its negation. -/
theorem C10_toggle_commands_prior_state (b : Bool) :
    (toggle_beam b).is_blank = !b ∧
    (toggle_beam (toggle_beam b).is_blank).is_blank = b ∧
    ((toggle_beam b).setBeamBlankArg = 1 ↔ b = true) ∧
    (toggle_beam b).setBeamBlankArg = if b then 1 else 0 := by
  cases b <;> simp [toggle_beam]
